import Mathlib

set_option linter.unusedVariables false
set_option linter.unnecessarySeqFocus false

/-!
Verification of the vm-manager core against its specification.

This file gives a shallow embedding of the claim-relevant parts of the
repository: the cloud-init NoCloud ISO producer (`cloudinit.rs`), the
overlay builder (`image.rs`) and the QEMU backend (`backends/qemu.rs`).
Effectful primitives (subprocess spawns, filesystem reads, QMP calls,
process-aliveness probes) are parameters supplied by an explicit
environment record; each Rust function becomes a pure Lean function of
its environment that also reports the externally visible trace (commands
run, files written, signals sent) where a claim depends on it.

Machine integers do not matter here (all arithmetic is on small
non-negative quantities), so numbers are `Nat`.  File contents are
`List Nat` (byte values); paths are `String`, with `join p c = p ++ "/" ++ c`
mirroring `PathBuf::join` followed by `display`.
-/

/-! ## String and byte helpers mirroring the Rust std primitives used -/

/-- Bytes of a UTF-8 string; the sources only use ASCII, where each char
is one byte. -/
def strBytes (s : String) : List Nat :=
  s.data.map Char.toNat

/-- Seek-and-overwrite on a byte file: seek to `off` (POSIX fills a gap
beyond EOF with zero bytes) and `write_all data`. -/
def writeAt (file : List Nat) (off : Nat) (data : List Nat) : List Nat :=
  (file.take off ++ List.replicate (off - file.length) 0)
    ++ data ++ file.drop (off + data.length)

/-- Rust `str::lines` on the character level: split at `\n`, no trailing
empty line, strip one trailing `\r` from each line. -/
def rustLines (cs : List Char) : List (List Char) :=
  let parts := cs.splitOn '\n'
  let parts := if parts.getLast? = some [] then parts.dropLast else parts
  parts.map (fun l => if l.getLast? = some '\r' then l.dropLast else l)

/-- Rust `str::split_whitespace` on the character level (the inputs at
stake are ASCII, where Rust's Unicode whitespace and `Char.isWhitespace`
agree). -/
def splitWs (cs : List Char) : List (List Char) :=
  (cs.splitOnP Char.isWhitespace).filter (fun t => t ≠ [])

/-- Substring test on char lists, used to mirror Rust `str::contains(&str)`. -/
def listIsInfix (needle hay : List Char) : Bool :=
  (List.range (hay.length + 1)).any (fun i => needle.isPrefixOf (hay.drop i))

/-- Rust `str::contains(&str)`. -/
def containsSub (s sub : String) : Bool :=
  listIsInfix sub.data s.data

/-! ## Error taxonomy and VM states (`error.rs`, `types.rs`)

Only the variants and fields the claim-relevant code constructs are
modelled; detail strings are carried verbatim from the construction
sites. -/

inductive VmError where
  | invalidState (name state : String)
  | qemuSpawnFailed (detail : String)
  | qmpConnectTimeout (path : String)
  | qmpProtocol (detail : String)
  | cloudInitIsoFailed (detail : String)
  | imageFormatDetectionFailed (path detail : String)
  | overlayCreationFailed (base detail : String)
  | ipDiscoveryTimeout (name : String)
  | ioError (detail : String)
  deriving DecidableEq, Repr

/-- Recognizer for the `ImageFormatDetectionFailed` kind. -/
def VmError.isFormatDetectionFailed : VmError → Bool
  | .imageFormatDetectionFailed _ _ => true
  | _ => false

/-- Recognizer for the `OverlayCreationFailed` kind. -/
def VmError.isOverlayCreationFailed : VmError → Bool
  | .overlayCreationFailed _ _ => true
  | _ => false

/-- Recognizer for the `QemuSpawnFailed` kind. -/
def VmError.isQemuSpawnFailed : VmError → Bool
  | .qemuSpawnFailed _ => true
  | _ => false

inductive VmState where
  | Prepared | Running | Stopped | Destroyed
  deriving DecidableEq, Repr

/-- `Except` analogue of `Result::is_err`. -/
def exceptIsError {ε α : Type} : Except ε α → Bool
  | .error _ => true
  | .ok _ => false

/-! ## Cloud-init NoCloud ISO producer (`cloudinit.rs`, `create_nocloud_iso_raw`)

Two build-time strategies.  The in-process strategy delegates ISO
construction to the `isobemak` crate (external to this repository; its
output bytes are an environment parameter) and then patches the PVD
volume identifier.  The external strategy shells out to
`genisoimage`/`mkisofs`. -/

def SECTOR_SIZE : Nat := 2048
def PVD_LBA : Nat := 16
def VOLID_OFFSET : Nat := 40
def VOLID_LEN : Nat := 32

/-- The 32-byte buffer written by the in-process patch:
`let mut buf = [b' '; 32]; buf[..6].copy_from_slice(b"CIDATA")`. -/
def cidataPatch : List Nat :=
  strBytes "CIDATA" ++ List.replicate 26 32

structure PureIsoEnv where
  /-- Bytes written by `isobemak::build_iso`; `none` models its failure. -/
  built : Option (List Nat)

/-- `create_nocloud_iso_raw`, `pure-iso` feature enabled: build via
isobemak, then seek to `PVD_LBA * SECTOR_SIZE + VOLID_OFFSET` and
overwrite 32 bytes with `CIDATA` padded by `b' '`. -/
def create_nocloud_iso_raw_pure (env : PureIsoEnv)
    (user_data meta_data : List Nat) : Except VmError (List Nat) :=
  match env.built with
  | none => .error (.cloudInitIsoFailed "isobemak")
  | some iso => .ok (writeAt iso (PVD_LBA * SECTOR_SIZE + VOLID_OFFSET) cidataPatch)

/-- Argument list passed to `genisoimage` (and, on spawn failure, to
`mkisofs`): note the `-volid` value is the lowercase `cidata`. -/
def genisoimageArgs (outIso userPath metaPath : String) : List String :=
  ["-quiet", "-output", outIso, "-volid", "cidata", "-joliet", "-rock",
   userPath, metaPath]

/-- Modelled from the spec: the external `genisoimage`/`mkisofs` tool is
not part of this repository; per §4.2 it is invoked "with flags to set
volume ID `cidata`", i.e. it writes an ISO whose PVD Volume Identifier
field (32 bytes at offset `16 * 2048 + 40`) holds its `-volid` argument
right-padded with `0x20`; all other bytes (`rest`) are tool-determined. -/
def externalToolIso (volid : String) (rest : List Nat) : List Nat :=
  writeAt rest (PVD_LBA * SECTOR_SIZE + VOLID_OFFSET)
    ((strBytes volid ++ List.replicate VOLID_LEN 32).take VOLID_LEN)

structure ExternalIsoEnv where
  /-- Exit of `genisoimage`: `none` = spawn failed (fall back to mkisofs). -/
  genisoStatus : Option Bool
  /-- Exit of `mkisofs`: `none` = spawn failed (the `?` propagates io::Error). -/
  mkisoStatus : Option Bool
  /-- Tool-determined ISO content apart from the volume-identifier field. -/
  toolBytes : List Nat

/-- `create_nocloud_iso_raw`, `pure-iso` feature disabled: try
`genisoimage`, fall back to `mkisofs` on spawn failure, fail with
`CloudInitIsoFailed` on non-zero exit.  No PVD patch is applied. -/
def create_nocloud_iso_raw_external (env : ExternalIsoEnv)
    (user_data meta_data : List Nat) : Except VmError (List Nat) :=
  let status : Option Bool :=
    match env.genisoStatus with
    | some s => some s
    | none => env.mkisoStatus
  match status with
  | none => .error (.ioError "mkisofs spawn failed")
  | some false =>
      .error (.cloudInitIsoFailed "genisoimage/mkisofs exited with non-zero status")
  | some true => .ok (externalToolIso "cidata" env.toolBytes)

/-! ## Overlay builder (`image.rs`)

`detect_format` shells out to `qemu-img info --output=json` and reads the
`format` field of the parsed JSON (`serde_json::Value`); `create_overlay`
then shells out to `qemu-img create`.  A minimal JSON value type mirrors
the `serde_json` operations used (`get` on an object, `as_str`). -/

inductive Json where
  | null
  | bool (b : Bool)
  | num (n : Int)
  | str (s : String)
  | arr (xs : List Json)
  | obj (kvs : List (String × Json))

/-- `serde_json::Value::get(key)`: field lookup, `None` on non-objects. -/
def Json.get : Json → String → Option Json
  | .obj kvs, k => (kvs.find? (fun p => p.1 = k)).map (fun p => p.2)
  | _, _ => none

/-- `serde_json::Value::as_str`. -/
def Json.asStr : Json → Option String
  | .str s => some s
  | _ => none

/-- A spawned subprocess invocation: program plus argument vector. -/
structure Cmd where
  program : String
  args : List String
  deriving DecidableEq, Repr

structure QemuImgEnv where
  /-- `qemu-img info --output=json` result: `none` = spawn failure;
  otherwise (exit success?, `serde_json::from_slice` of stdout, where
  `none` = unparseable). -/
  infoRun : Option (Bool × Option Json)
  /-- `qemu-img create` result: `none` = spawn failure. -/
  createRun : Option Bool
  /-- stderr of `qemu-img info`, used in the error detail. -/
  infoStderr : String
  /-- stderr of `qemu-img create`, used in the error detail. -/
  createStderr : String

/-- The `qemu-img info --output=json <path>` invocation. -/
def qemuImgInfoCmd (path : String) : Cmd :=
  ⟨"qemu-img", ["info", "--output=json", path]⟩

/-- `image::detect_format`. -/
def detect_format (env : QemuImgEnv) (path : String) : Except VmError String :=
  match env.infoRun with
  | none => .error (.imageFormatDetectionFailed path "qemu-img not found")
  | some (false, _) => .error (.imageFormatDetectionFailed path env.infoStderr)
  | some (true, none) =>
      .error (.imageFormatDetectionFailed path "failed to parse qemu-img JSON")
  | some (true, some info) =>
      .ok (((info.get "format").bind Json.asStr).getD "raw")

/-- Argument vector of `qemu-img create` as built by `create_overlay`:
`create -f qcow2 -F <fmt> -b <base> <overlay>` plus `<gb>G` when a size
is requested. -/
def createOverlayArgs (base overlay fmt : String) (size_gb : Option Nat) :
    List String :=
  ["create", "-f", "qcow2", "-F", fmt, "-b", base, overlay]
    ++ (match size_gb with
        | some gb => [toString gb ++ "G"]
        | none => [])

/-- `image::create_overlay`, returning the `qemu-img` invocations it
attempts (in order) together with its result. -/
def create_overlay (env : QemuImgEnv) (base overlay : String)
    (size_gb : Option Nat) : List Cmd × Except VmError Unit :=
  match detect_format env base with
  | .error e => ([qemuImgInfoCmd base], .error e)
  | .ok fmt =>
    let createCmd : Cmd := ⟨"qemu-img", createOverlayArgs base overlay fmt size_gb⟩
    match env.createRun with
    | none =>
        ([qemuImgInfoCmd base, createCmd],
         .error (.overlayCreationFailed base "qemu-img not found"))
    | some false =>
        ([qemuImgInfoCmd base, createCmd],
         .error (.overlayCreationFailed base env.createStderr))
    | some true => ([qemuImgInfoCmd base, createCmd], .ok ())

/-! ## QEMU backend data model (`types.rs` as used by `backends/qemu.rs`) -/

/-- `PathBuf::join` followed by `display`. -/
def pathJoin (p c : String) : String :=
  p ++ "/" ++ c

inductive BackendTag where
  | Qemu | Noop
  deriving DecidableEq, Repr

structure VmHandleM where
  id : String
  name : String
  backend : BackendTag
  work_dir : String
  overlay_path : Option String
  seed_iso_path : Option String
  pid : Option Nat
  qmp_socket : Option String
  console_socket : Option String
  vnc_addr : Option String
  deriving DecidableEq, Repr

structure CloudInitM where
  user_data : List Nat
  /-- Present in the data model; `QemuBackend::prepare` does not read it
  (it synthesizes `meta_data` from the fields below). -/
  meta_data : Option (List Nat)
  instance_id : Option String
  hostname : Option String
  deriving DecidableEq, Repr

structure VmSpecM where
  name : String
  image_path : String
  vcpus : Nat
  memory_mb : Nat
  disk_gb : Option Nat
  cloud_init : Option CloudInitM
  deriving DecidableEq, Repr

/-! ## `QemuBackend::stop` (qemu.rs lines 236-285)

The poll loop runs its `k`-th iteration at elapsed time `500·k` ms
(sleeping 500 ms between iterations) and each iteration first re-reads
the pidfile, then probes the pid.  The environment answers the `i`-th
pidfile read with `pidAt i` and the `i`-th aliveness probe of `pid` with
`aliveAt i pid`; call indices grow with wall-clock time. -/

inductive StopEvent where
  | acpi
  | sigterm (pid t : Nat)
  | sigkill (pid t : Nat)
  deriving DecidableEq, Repr

structure StopEnv where
  /-- `qmp_sock.exists()`. -/
  sockExists : Bool
  /-- `QmpClient::connect(qmp_sock, 2s)` succeeded. -/
  qmpConnectOk : Bool
  /-- Result of `system_powerdown` (discarded by the code: `let _ = ...`). -/
  powerdownOk : Bool
  /-- Result of the `i`-th `read_pid` call. -/
  pidAt : Nat → Option Nat
  /-- Result of the `i`-th `pid_alive` probe, per pid. -/
  aliveAt : Nat → Nat → Bool

/-- First iteration at which `start.elapsed() >= timeout` trips: the
`k`-th iteration runs at elapsed `500·k` ms. -/
def breakIter (timeoutMs : Nat) : Nat :=
  (timeoutMs + 499) / 500

/-- Observation of poll-loop iteration `k`: true when the pidfile is
absent or the pid it names is no longer alive (the two early-`Ok`
returns of the loop). -/
def pidGoneAt (env : StopEnv) (k : Nat) : Bool :=
  match env.pidAt k with
  | none => true
  | some pid => ! env.aliveAt k pid

/-- The SIGTERM/SIGKILL escalation after the poll loop breaks at
iteration `K` (elapsed `500·K` ms): re-read the pidfile (call index
`K+1`), send SIGTERM if the pid is alive and sleep 3 s, then send
SIGKILL if the pid is still alive (call index `K+2`). -/
def stopEscalation (env : StopEnv) (K : Nat) : List StopEvent :=
  match env.pidAt (K + 1) with
  | none => []
  | some pid =>
    if env.aliveAt (K + 1) pid then
      [.sigterm pid (500 * K)]
        ++ (if env.aliveAt (K + 2) pid then [.sigkill pid (500 * K + 3000)]
            else [])
    else
      (if env.aliveAt (K + 2) pid then [.sigkill pid (500 * K)] else [])

/-- `QemuBackend::stop`: best-effort ACPI powerdown over QMP, poll the
pidfile every 500 ms until the caller's timeout, then escalate.  Returns
the QMP/signal trace together with the result. -/
def QemuBackend.stop (env : StopEnv) (qmp_socket : Option String)
    (timeoutMs : Nat) : List StopEvent × Except VmError Unit :=
  let acpi : List StopEvent :=
    if qmp_socket.isSome && env.sockExists && env.qmpConnectOk then
      [.acpi]
    else []
  let K := breakIter timeoutMs
  match (List.range (K + 1)).find? (pidGoneAt env) with
  | some _ => (acpi, .ok ())
  | none => (acpi ++ stopEscalation env K, .ok ())

/-- Aliveness probes are monotone: a pid observed dead stays dead at
later probes (probe indices grow with time; a dead process never comes
back). -/
def DeadStaysDead (env : StopEnv) : Prop :=
  ∀ i j pid, i ≤ j → env.aliveAt i pid = false → env.aliveAt j pid = false

/-! ## `QemuBackend::state` (qemu.rs lines 322-349) -/

structure StateEnv where
  /-- Result of `read_pid(work_dir)`. -/
  pidRead : Option Nat
  /-- `pid_alive`. -/
  alive : Nat → Bool
  /-- `QmpClient::connect(qmp_sock, 2s)` succeeded. -/
  qmpConnectOk : Bool
  /-- `query-status` result: `none` = the QMP call failed. -/
  queryStatus : Option String
  /-- `work_dir.exists()`. -/
  workDirExists : Bool

/-- The `match status.as_str()` mapping in `state`. -/
def mapQmpStatus (s : String) : VmState :=
  if s = "running" then .Running
  else if s = "paused" ∨ s = "suspended" then .Stopped
  else .Running

/-- `QemuBackend::state`: alive pid ⇒ QMP query (falling back to
`Running` on any failure); otherwise `Stopped`/`Destroyed` by `work_dir`
existence.  The fall-through to the `work_dir` check is duplicated in
the two non-alive branches, matching the single fall-through in the
source. -/
def QemuBackend.state (env : StateEnv) (qmp_socket : Option String) :
    Except VmError VmState :=
  match env.pidRead with
  | some pid =>
    if env.alive pid then
      .ok (match qmp_socket with
        | some _ =>
            if env.qmpConnectOk then
              match env.queryStatus with
              | some s => mapQmpStatus s
              | none => .Running
            else .Running
        | none => .Running)
    else
      if env.workDirExists then .ok .Stopped else .ok .Destroyed
  | none =>
      if env.workDirExists then .ok .Stopped else .ok .Destroyed

/-! ## `QemuBackend::guest_ip` (qemu.rs lines 351-393) -/

structure GuestIpEnv where
  /-- stdout of `ip neigh show`; `none` = the spawn itself failed. -/
  ipNeighOut : Option (List Char)
  /-- Contents of `/var/lib/misc/dnsmasq.leases`; `none` = read failed. -/
  leases : Option (List Char)

/-- The per-line scan of the `ip neigh show` output: lines containing
`REACHABLE` or `STALE`, first whitespace token, must contain `.` and not
start with `127.`. -/
def scanNeighLine (line : List Char) : Option (List Char) :=
  if listIsInfix "REACHABLE".data line || listIsInfix "STALE".data line then
    match (splitWs line).head? with
    | some tok =>
        if tok.contains '.' && ! ("127.".data.isPrefixOf tok) then some tok
        else none
    | none => none
  else none

/-- `QemuBackend::guest_ip`: scan the ARP table, then fall back to the
newest dnsmasq lease when a default bridge is configured, else fail with
`IpDiscoveryTimeout`. -/
def QemuBackend.guest_ip (env : GuestIpEnv) (default_bridge : Option String)
    (name : String) : Except VmError String :=
  match env.ipNeighOut with
  | none => .error (.ipDiscoveryTimeout name)
  | some text =>
    match (rustLines text).findSome? scanNeighLine with
    | some ip => .ok (String.mk ip)
    | none =>
      let lease : Option (List Char) :=
        if default_bridge.isSome then
          match env.leases with
          | some content =>
            match (rustLines content).getLast? with
            | some line =>
                let parts := splitWs line
                if parts.length ≥ 3 then parts.get? 2 else none
            | none => none
          | none => none
        else none
      match lease with
      | some ip => .ok (String.mk ip)
      | none => .error (.ipDiscoveryTimeout name)

/-! ## `QemuBackend::start` (qemu.rs lines 144-234) -/

structure StartEnv where
  /-- `Command::status()` on the qemu binary: `none` = launch failure
  (io error), `some b` = exited with success flag `b`. -/
  spawnStatus : Option Bool
  /-- `QmpClient::connect(qmp_sock, 10s)`: the error it fails with. -/
  qmpConnectErr : Option VmError
  /-- `query_status` after a successful connect. -/
  queryStatusRes : Except VmError String

/-- The QEMU argument vector built by `start` (spec §6.1). -/
def qemuArgs (overlay qmpSock consoleSock workDir : String)
    (seed : Option String) : List String :=
  ["-enable-kvm",
   "-machine", "q35,accel=kvm",
   "-cpu", "host",
   "-nodefaults",
   "-qmp", "unix:" ++ qmpSock ++ ",server,nowait",
   "-serial", "unix:" ++ consoleSock ++ ",server,nowait",
   "-vnc", "127.0.0.1:0",
   "-device", "virtio-rng-pci",
   "-drive", "file=" ++ overlay ++ ",format=qcow2,if=none,id=drive0,discard=unmap",
   "-device", "virtio-blk-pci,drive=drive0"]
  ++ (match seed with
      | some iso =>
          ["-drive", "file=" ++ iso ++ ",format=raw,if=none,id=seed,readonly=on",
           "-device", "virtio-blk-pci,drive=seed"]
      | none => [])
  ++ ["-daemonize", "-pidfile", pathJoin workDir "qemu.pid"]

/-- Outcome of a `start` call: the argv handed to the spawned qemu
binary (when a spawn happened), the result, and whether the Rust code
would have panicked (`unwrap` on a missing socket path). -/
structure StartTrace where
  panicked : Bool
  spawnedArgs : Option (List String)
  result : Except VmError Unit
  deriving Repr

/-- `QemuBackend::start`: fail with `InvalidState` when the handle has
no overlay path, unwrap the socket paths, spawn qemu with the §6.1
argv (failing with `QemuSpawnFailed` on launch failure or non-zero
exit), then connect QMP (10 s) and `query-status`, propagating their
errors. -/
def QemuBackend.start (env : StartEnv) (vm : VmHandleM) : StartTrace :=
  match vm.overlay_path with
  | none => ⟨false, none, .error (.invalidState vm.name "no overlay path")⟩
  | some overlay =>
    match vm.qmp_socket, vm.console_socket with
    | some qmpSock, some consoleSock =>
      let args := qemuArgs overlay qmpSock consoleSock vm.work_dir vm.seed_iso_path
      match env.spawnStatus with
      | none =>
          ⟨false, some args, .error (.qemuSpawnFailed "launch failed")⟩
      | some false =>
          ⟨false, some args, .error (.qemuSpawnFailed "QEMU exited with non-zero status")⟩
      | some true =>
          match env.qmpConnectErr with
          | some e => ⟨false, some args, .error e⟩
          | none =>
              match env.queryStatusRes with
              | .error e => ⟨false, some args, .error e⟩
              | .ok _ => ⟨false, some args, .ok ()⟩
    | _, _ => ⟨true, none, .ok ()⟩

/-! ## `QemuBackend::prepare` (qemu.rs lines 97-142) -/

structure PrepareEnv where
  /-- `create_dir_all(work_dir)` succeeded. -/
  createDirOk : Bool
  /-- Environment of the `image::create_overlay` call. -/
  imgEnv : QemuImgEnv
  /-- `create_nocloud_iso_raw` outcome: `none` = success. -/
  isoErr : Option VmError
  /-- `uuid::Uuid::new_v4()` rendered as a string. -/
  uuid : String

/-- `QemuBackend::prepare`: create the work dir, build the overlay,
synthesize meta-data and write the seed ISO when cloud-init is
configured, and assemble the handle.  Also returns the list of seed-ISO
writes attempted, as `(out_path, user_data, meta_data)` triples. -/
def QemuBackend.prepare (env : PrepareEnv) (data_dir : String)
    (spec : VmSpecM) :
    List (String × List Nat × List Nat) × Except VmError VmHandleM :=
  let work_dir := pathJoin data_dir spec.name
  if env.createDirOk = false then
    ([], .error (.ioError "create_dir_all failed"))
  else
    let overlay := pathJoin work_dir "overlay.qcow2"
    match (create_overlay env.imgEnv spec.image_path overlay spec.disk_gb).2 with
    | .error e => ([], .error e)
    | .ok _ =>
      match spec.cloud_init with
      | some ci =>
        let iso_path := pathJoin work_dir "seed.iso"
        let instance_id := ci.instance_id.getD spec.name
        let hostname := ci.hostname.getD spec.name
        let meta_data :=
          strBytes ("instance-id: " ++ instance_id
            ++ "\nlocal-hostname: " ++ hostname ++ "\n")
        let writes := [(iso_path, ci.user_data, meta_data)]
        match env.isoErr with
        | some e => (writes, .error e)
        | none =>
            (writes,
             .ok { id := "qemu-" ++ env.uuid, name := spec.name,
                   backend := .Qemu, work_dir := work_dir,
                   overlay_path := some overlay,
                   seed_iso_path := some iso_path, pid := none,
                   qmp_socket := some (pathJoin work_dir "qmp.sock"),
                   console_socket := some (pathJoin work_dir "console.sock"),
                   vnc_addr := none })
      | none =>
          ([],
           .ok { id := "qemu-" ++ env.uuid, name := spec.name,
                 backend := .Qemu, work_dir := work_dir,
                 overlay_path := some overlay,
                 seed_iso_path := none, pid := none,
                 qmp_socket := some (pathJoin work_dir "qmp.sock"),
                 console_socket := some (pathJoin work_dir "console.sock"),
                 vnc_addr := none })

/-! ## `QemuBackend::suspend` / `resume` (qemu.rs lines 287-301) -/

structure QmpOpEnv where
  /-- `QmpClient::connect(qmp_sock, 5s)`: the error it fails with,
  `none` = connected. -/
  connectErr : Option VmError
  /-- The issued QMP command (`stop` for suspend, `cont` for resume):
  the error it fails with, `none` = succeeded. -/
  cmdErr : Option VmError

/-- Shared body of `suspend` and `resume`: when a `qmp_socket` path is
present, connect and issue the command, propagating both errors;
otherwise do nothing.  The first component records whether a QMP
connection was attempted. -/
def qmpOpOnSocket (env : QmpOpEnv) (qmp_socket : Option String) :
    Bool × Except VmError Unit :=
  match qmp_socket with
  | some _ =>
      (true,
       match env.connectErr with
       | some e => .error e
       | none =>
           match env.cmdErr with
           | some e => .error e
           | none => .ok ())
  | none => (false, .ok ())

/-- `QemuBackend::suspend` (QMP `stop`). -/
def QemuBackend.suspend (env : QmpOpEnv) (qmp_socket : Option String) :
    Bool × Except VmError Unit :=
  qmpOpOnSocket env qmp_socket

/-- `QemuBackend::resume` (QMP `cont`). -/
def QemuBackend.resume (env : QmpOpEnv) (qmp_socket : Option String) :
    Bool × Except VmError Unit :=
  qmpOpOnSocket env qmp_socket

/-! ## Theorems -/

theorem writeAt_pre_length (file : List Nat) (off : Nat) :
    (file.take off ++ List.replicate (off - file.length) 0).length = off := by
  simp [List.length_take]
  omega

/-- Reading back exactly the overwritten range recovers the written data. -/
theorem writeAt_read_back (file : List Nat) (off : Nat) (data : List Nat) :
    ((writeAt file off data).drop off).take data.length = data := by
  unfold writeAt
  rw [List.append_assoc, List.drop_left' (writeAt_pre_length file off),
    List.take_left]

/-- Extracting the volume-identifier field after the in-process patch. -/
theorem pure_patch_field (iso : List Nat) :
    (((writeAt iso (PVD_LBA * SECTOR_SIZE + VOLID_OFFSET) cidataPatch).drop
        (16 * 2048 + 40)).take 32)
      = strBytes "CIDATA" ++ List.replicate 26 32 := by
  have hlen : cidataPatch.length = 32 := by decide
  have h := writeAt_read_back iso (PVD_LBA * SECTOR_SIZE + VOLID_OFFSET) cidataPatch
  rw [hlen] at h
  simpa [PVD_LBA, SECTOR_SIZE, VOLID_OFFSET, cidataPatch] using h

/-- Extracting the volume-identifier field of the external tool's output. -/
theorem external_tool_field (rest : List Nat) :
    (((externalToolIso "cidata" rest).drop (16 * 2048 + 40)).take 32)
      = strBytes "cidata" ++ List.replicate 26 32 := by
  have hlen : ((strBytes "cidata" ++ List.replicate VOLID_LEN 32).take VOLID_LEN).length
      = 32 := by decide
  have hval : ((strBytes "cidata" ++ List.replicate VOLID_LEN 32).take VOLID_LEN)
      = strBytes "cidata" ++ List.replicate 26 32 := by decide
  have h := writeAt_read_back rest (PVD_LBA * SECTOR_SIZE + VOLID_OFFSET)
      ((strBytes "cidata" ++ List.replicate VOLID_LEN 32).take VOLID_LEN)
  rw [hlen, hval] at h
  simpa [externalToolIso, PVD_LBA, SECTOR_SIZE, VOLID_OFFSET, hval] using h

/-- C1 fails as stated: under the external-tool strategy, with both tools
succeeding and any tool-determined remainder (here `[]`), the 32-byte
field at absolute offset `16 * 2048 + 40` of the produced ISO is the
lowercase `cidata` padded with `0x20`, not the ASCII bytes `CIDATA`. -/
theorem c1_counterexample :
    (create_nocloud_iso_raw_external ⟨some true, none, []⟩ [] []).map
        (fun out => (out.drop (16 * 2048 + 40)).take 32)
      ≠ Except.ok (strBytes "CIDATA" ++ List.replicate 26 32) := by
  have hfield := external_tool_field []
  simp only [create_nocloud_iso_raw_external, Except.map, hfield]
  intro hc
  have : strBytes "cidata" ++ List.replicate 26 32
      = strBytes "CIDATA" ++ List.replicate 26 32 := by
    injection hc
  exact absurd this (by decide)

/-- C1 (amended): when the ISO producer's produce operation succeeds, the
32 bytes of the output at absolute offset `16 * 2048 + 40` are `CIDATA`
right-padded with `0x20` under the in-process strategy, but under the
external-tool strategy they are the lowercase `cidata` (the `-volid`
value the code passes) right-padded with `0x20`. -/
theorem c1_pvd_volume_identifier
    (envP : PureIsoEnv) (envE : ExternalIsoEnv)
    (udP mdP udE mdE outP outE : List Nat)
    (hP : create_nocloud_iso_raw_pure envP udP mdP = .ok outP)
    (hE : create_nocloud_iso_raw_external envE udE mdE = .ok outE) :
    ((outP.drop (16 * 2048 + 40)).take 32
        = strBytes "CIDATA" ++ List.replicate 26 32)
    ∧ ((outE.drop (16 * 2048 + 40)).take 32
        = strBytes "cidata" ++ List.replicate 26 32) := by
  constructor
  · cases hbuilt : envP.built with
    | none => simp [create_nocloud_iso_raw_pure, hbuilt] at hP
    | some iso =>
        simp only [create_nocloud_iso_raw_pure, hbuilt, Except.ok.injEq] at hP
        rw [← hP]
        exact pure_patch_field iso
  · unfold create_nocloud_iso_raw_external at hE
    cases hg : envE.genisoStatus with
    | some s =>
        cases s with
        | false => simp [hg] at hE
        | true =>
            simp only [hg, Except.ok.injEq] at hE
            rw [← hE]
            exact external_tool_field envE.toolBytes
    | none =>
        cases hm : envE.mkisoStatus with
        | none => simp [hg, hm] at hE
        | some s =>
            cases s with
            | false => simp [hg, hm] at hE
            | true =>
                simp only [hg, hm, Except.ok.injEq] at hE
                rw [← hE]
                exact external_tool_field envE.toolBytes

/-- Concrete instantiation of `c1_pvd_volume_identifier`. -/
theorem c1_pvd_volume_identifier_witness :
    (((writeAt [] (16 * 2048 + 40) cidataPatch).drop (16 * 2048 + 40)).take 32
        = strBytes "CIDATA" ++ List.replicate 26 32)
    ∧ (((externalToolIso "cidata" []).drop (16 * 2048 + 40)).take 32
        = strBytes "cidata" ++ List.replicate 26 32) :=
  c1_pvd_volume_identifier ⟨some []⟩ ⟨some true, none, []⟩ [] [] [] []
    (writeAt [] (16 * 2048 + 40) cidataPatch) (externalToolIso "cidata" [])
    rfl rfl

/-- C5: `create_overlay` first runs `qemu-img info --output=json <base>`,
fails with the format-detection error kind on non-zero exit or
unparseable JSON (running nothing else), and otherwise runs exactly
`qemu-img create -f qcow2 -F <fmt> -b <base> <overlay>` with `<gb>G`
appended when a size is given, failing with the overlay-creation error
kind on non-zero exit; the `-F` flag is always present in the create
invocation. -/
theorem c5_create_overlay_commands (env : QemuImgEnv) (base overlay : String)
    (size_gb : Option Nat) :
    ((create_overlay env base overlay size_gb).1.head? = some (qemuImgInfoCmd base))
    ∧ (∀ p, env.infoRun = some (false, p) →
        (create_overlay env base overlay size_gb).2
            = .error (.imageFormatDetectionFailed base env.infoStderr)
          ∧ (create_overlay env base overlay size_gb).1 = [qemuImgInfoCmd base])
    ∧ (env.infoRun = some (true, none) →
        (create_overlay env base overlay size_gb).2
            = .error (.imageFormatDetectionFailed base "failed to parse qemu-img JSON")
          ∧ (create_overlay env base overlay size_gb).1 = [qemuImgInfoCmd base])
    ∧ (∀ fmt, detect_format env base = .ok fmt →
        (create_overlay env base overlay size_gb).1
            = [qemuImgInfoCmd base,
               ⟨"qemu-img",
                ["create", "-f", "qcow2", "-F", fmt, "-b", base, overlay]
                  ++ (match size_gb with
                      | some gb => [toString gb ++ "G"]
                      | none => [])⟩]
          ∧ (env.createRun = some false →
              (create_overlay env base overlay size_gb).2
                = .error (.overlayCreationFailed base env.createStderr))
          ∧ (env.createRun = some true →
              (create_overlay env base overlay size_gb).2 = .ok ()))
    ∧ (∀ c, (create_overlay env base overlay size_gb).1.get? 1 = some c →
        "-F" ∈ c.args) := by
  refine ⟨?_, ?_, ?_, ?_, ?_⟩
  · rcases hinfo : env.infoRun with _ | ⟨_ | _, _ | j⟩ <;>
      rcases hc : env.createRun with _ | ⟨_ | _⟩ <;>
      simp [create_overlay, detect_format, hinfo, hc]
  · intro p hinfo
    rcases hc : env.createRun with _ | ⟨_ | _⟩ <;>
      simp [create_overlay, detect_format, hinfo, hc]
  · intro hinfo
    rcases hc : env.createRun with _ | ⟨_ | _⟩ <;>
      simp [create_overlay, detect_format, hinfo, hc]
  · intro fmt hfmt
    rcases hinfo : env.infoRun with _ | ⟨_ | _, _ | j⟩ <;>
      simp [detect_format, hinfo] at hfmt
    rcases hc : env.createRun with _ | ⟨_ | _⟩ <;>
      simp [create_overlay, detect_format, hinfo, hc, createOverlayArgs, ← hfmt]
  · intro c hc1
    rcases hinfo : env.infoRun with _ | ⟨_ | _, _ | j⟩ <;>
      rcases hc : env.createRun with _ | ⟨_ | _⟩ <;>
      simp [create_overlay, detect_format, hinfo, hc, createOverlayArgs] at hc1 <;>
      simp [← hc1]

/-- Concrete instantiation of `c5_create_overlay_commands`: a qcow2 base
with a requested 5 GiB size yields exactly the specified create argv. -/
theorem c5_create_overlay_commands_witness :
    (create_overlay
        ⟨some (true, some (Json.obj [("format", Json.str "qcow2")])),
         some true, "", ""⟩ "base.img" "ov.qcow2" (some 5)).1
      = [qemuImgInfoCmd "base.img",
         ⟨"qemu-img",
          ["create", "-f", "qcow2", "-F", "qcow2", "-b", "base.img",
           "ov.qcow2", "5G"]⟩] := by
  have h := (c5_create_overlay_commands
      ⟨some (true, some (Json.obj [("format", Json.str "qcow2")])),
       some true, "", ""⟩ "base.img" "ov.qcow2" (some 5)).2.2.2.1 "qcow2" rfl
  simpa using h.1

/-- C9: `detect_format` fails exactly on a spawn failure, a non-zero
`qemu-img` exit, or unparseable JSON; when the exit is zero and the JSON
parses but merely lacks a string `format` field, it succeeds returning
`"raw"`. -/
theorem c9_detect_format_raw_default (env : QemuImgEnv) (path : String) :
    (∀ j, env.infoRun = some (true, some j) →
        (j.get "format").bind Json.asStr = none →
        detect_format env path = .ok "raw")
    ∧ (exceptIsError (detect_format env path) = true ↔
        env.infoRun = none ∨ (∃ p, env.infoRun = some (false, p))
          ∨ env.infoRun = some (true, none)) := by
  constructor
  · intro j hinfo hfmt
    simp [detect_format, hinfo, hfmt]
  · rcases hinfo : env.infoRun with _ | ⟨_ | _, _ | j⟩ <;>
      simp [detect_format, hinfo, exceptIsError]

/-- Concrete instantiation of `c9_detect_format_raw_default`: valid JSON
with no `format` key (and one with a non-string `format`) both give
`"raw"`. -/
theorem c9_detect_format_raw_default_witness :
    detect_format ⟨some (true, some (Json.obj [("virtual-size", Json.num 100)])),
        none, "", ""⟩ "disk.img" = .ok "raw"
    ∧ detect_format ⟨some (true, some (Json.obj [("format", Json.num 3)])),
        none, "", ""⟩ "disk.img" = .ok "raw" :=
  ⟨(c9_detect_format_raw_default
      ⟨some (true, some (Json.obj [("virtual-size", Json.num 100)])), none, "", ""⟩
      "disk.img").1 (Json.obj [("virtual-size", Json.num 100)]) rfl rfl,
   (c9_detect_format_raw_default
      ⟨some (true, some (Json.obj [("format", Json.num 3)])), none, "", ""⟩
      "disk.img").1 (Json.obj [("format", Json.num 3)]) rfl rfl⟩

/-- A SIGTERM in the escalation happens at the break time `500·K`, after
the post-loop pidfile re-read found the pid and the probe found it
alive. -/
theorem sigterm_mem_stopEscalation (env : StopEnv) (K pid t : Nat)
    (h : StopEvent.sigterm pid t ∈ stopEscalation env K) :
    t = 500 * K ∧ env.pidAt (K + 1) = some pid
      ∧ env.aliveAt (K + 1) pid = true := by
  cases hp : env.pidAt (K + 1) with
  | none => simp [stopEscalation, hp] at h
  | some q =>
      simp only [stopEscalation, hp] at h
      by_cases ha1 : env.aliveAt (K + 1) q = true
      · rw [if_pos ha1] at h
        rcases List.mem_append.mp h with h | h
        · simp at h
          exact ⟨h.2, by rw [h.1], by rw [h.1]; exact ha1⟩
        · by_cases ha2 : env.aliveAt (K + 2) q = true <;>
            simp [ha2] at h
      · rw [if_neg ha1] at h
        by_cases ha2 : env.aliveAt (K + 2) q = true <;> simp [ha2] at h

/-- Under monotone death, a SIGKILL in the escalation happens 3 s after
the break time, and only with the pid observed alive at both post-loop
probes (so a SIGTERM was sent first). -/
theorem sigkill_mem_stopEscalation (env : StopEnv) (K pid t : Nat)
    (hmono : DeadStaysDead env)
    (h : StopEvent.sigkill pid t ∈ stopEscalation env K) :
    t = 500 * K + 3000 ∧ env.pidAt (K + 1) = some pid
      ∧ env.aliveAt (K + 1) pid = true ∧ env.aliveAt (K + 2) pid = true := by
  cases hp : env.pidAt (K + 1) with
  | none => simp [stopEscalation, hp] at h
  | some q =>
      simp only [stopEscalation, hp] at h
      by_cases ha1 : env.aliveAt (K + 1) q = true
      · rw [if_pos ha1] at h
        rcases List.mem_append.mp h with h | h
        · simp at h
        · by_cases ha2 : env.aliveAt (K + 2) q = true
          · rw [if_pos ha2] at h
            simp at h
            refine ⟨h.2, by rw [h.1], ?_, ?_⟩
            · rw [h.1]; exact ha1
            · rw [h.1]; exact ha2
          · rw [if_neg ha2] at h; simp at h
      · rw [if_neg ha1] at h
        by_cases ha2 : env.aliveAt (K + 2) q = true
        · exact absurd (hmono (K + 1) (K + 2) q (by omega)
            (Bool.eq_false_iff.mpr ha1)) (by simp [ha2])
        · rw [if_neg ha2] at h; simp at h

/-- The escalation phase never issues the ACPI powerdown. -/
theorem acpi_not_mem_stopEscalation (env : StopEnv) (K : Nat) :
    StopEvent.acpi ∉ stopEscalation env K := by
  cases hp : env.pidAt (K + 1) with
  | none => simp [stopEscalation, hp]
  | some q =>
      by_cases ha1 : env.aliveAt (K + 1) q = true <;>
        by_cases ha2 : env.aliveAt (K + 2) q = true <;>
          simp [stopEscalation, hp, ha1, ha2]

/-- When both post-loop probes see the pid alive, the escalation opens
with SIGTERM at the break time. -/
theorem sigterm_head_stopEscalation (env : StopEnv) (K pid : Nat)
    (hp : env.pidAt (K + 1) = some pid)
    (ha : env.aliveAt (K + 1) pid = true) :
    StopEvent.sigterm pid (500 * K) ∈ stopEscalation env K := by
  simp only [stopEscalation, hp]
  rw [if_pos ha]
  exact List.mem_append.mpr (Or.inl (List.mem_singleton.mpr rfl))

/-- The caller's timeout has elapsed by the break iteration. -/
theorem timeout_le_breakIter (timeoutMs : Nat) :
    timeoutMs ≤ 500 * breakIter timeoutMs := by
  unfold breakIter
  omega

/-- C2: for every environment — QMP connection or `system_powerdown`
failure, absent pidfile, SIGTERM/SIGKILL escalation — and every handle
socket and timeout, `QemuBackend::stop` returns `Ok`. -/
theorem c2_stop_always_ok (env : StopEnv) (qmp_socket : Option String)
    (timeoutMs : Nat) :
    (QemuBackend.stop env qmp_socket timeoutMs).2 = .ok () := by
  unfold QemuBackend.stop
  cases h : (List.range (breakIter timeoutMs + 1)).find? (pidGoneAt env) <;>
    simp [h]

/-- Shape of the `stop` trace when the poll loop saw the pid disappear. -/
theorem stop_events_of_find_some (env : StopEnv) (qmp_socket : Option String)
    (timeoutMs : Nat) (k : Nat)
    (h : (List.range (breakIter timeoutMs + 1)).find? (pidGoneAt env) = some k) :
    (QemuBackend.stop env qmp_socket timeoutMs).1
      = (if qmp_socket.isSome && env.sockExists && env.qmpConnectOk
         then [StopEvent.acpi] else []) := by
  unfold QemuBackend.stop
  simp [h]

/-- Shape of the `stop` trace when the poll loop timed out. -/
theorem stop_events_of_find_none (env : StopEnv) (qmp_socket : Option String)
    (timeoutMs : Nat)
    (h : (List.range (breakIter timeoutMs + 1)).find? (pidGoneAt env) = none) :
    (QemuBackend.stop env qmp_socket timeoutMs).1
      = (if qmp_socket.isSome && env.sockExists && env.qmpConnectOk
         then [StopEvent.acpi] else []) ++ stopEscalation env (breakIter timeoutMs) := by
  unfold QemuBackend.stop
  simp [h]

/-- C3: in the `stop` trace, the ACPI attempt (when made) comes first;
SIGTERM is sent only at or after the caller's timeout and only with the
pid still alive at the post-timeout check; SIGKILL is sent only 3 s after
a SIGTERM to the same pid with the pid still alive; and if the pid
disappears during the 500 ms polling, no signal is sent at all.  The
environment hypothesis says a pid observed dead stays dead. -/
theorem c3_stop_signal_ordering (env : StopEnv) (qmp_socket : Option String)
    (timeoutMs : Nat) (hmono : DeadStaysDead env) :
    (StopEvent.acpi ∈ (QemuBackend.stop env qmp_socket timeoutMs).1 →
        (QemuBackend.stop env qmp_socket timeoutMs).1.head? = some StopEvent.acpi)
    ∧ (∀ pid t, StopEvent.sigterm pid t ∈ (QemuBackend.stop env qmp_socket timeoutMs).1 →
        timeoutMs ≤ t
          ∧ env.pidAt (breakIter timeoutMs + 1) = some pid
          ∧ env.aliveAt (breakIter timeoutMs + 1) pid = true)
    ∧ (∀ pid t, StopEvent.sigkill pid t ∈ (QemuBackend.stop env qmp_socket timeoutMs).1 →
        StopEvent.sigterm pid (t - 3000) ∈ (QemuBackend.stop env qmp_socket timeoutMs).1
          ∧ 3000 ≤ t ∧ env.aliveAt (breakIter timeoutMs + 2) pid = true)
    ∧ ((∃ k, k ≤ breakIter timeoutMs ∧
          (env.pidAt k = none
            ∨ ∃ pid, env.pidAt k = some pid ∧ env.aliveAt k pid = false)) →
        ∀ pid t,
          StopEvent.sigterm pid t ∉ (QemuBackend.stop env qmp_socket timeoutMs).1
          ∧ StopEvent.sigkill pid t ∉ (QemuBackend.stop env qmp_socket timeoutMs).1) := by
  refine ⟨?_, ?_, ?_, ?_⟩
  · intro hin
    cases hfind : (List.range (breakIter timeoutMs + 1)).find? (pidGoneAt env) with
    | some k =>
        rw [stop_events_of_find_some env qmp_socket timeoutMs k hfind] at hin ⊢
        by_cases hc : (qmp_socket.isSome && env.sockExists && env.qmpConnectOk) = true <;>
          simp [hc] at hin ⊢
    | none =>
        rw [stop_events_of_find_none env qmp_socket timeoutMs hfind] at hin ⊢
        by_cases hc : (qmp_socket.isSome && env.sockExists && env.qmpConnectOk) = true
        · simp [hc]
        · simp [hc] at hin ⊢
          exact absurd hin (acpi_not_mem_stopEscalation env (breakIter timeoutMs))
  · intro pid t hin
    cases hfind : (List.range (breakIter timeoutMs + 1)).find? (pidGoneAt env) with
    | some k =>
        rw [stop_events_of_find_some env qmp_socket timeoutMs k hfind] at hin
        by_cases hc : (qmp_socket.isSome && env.sockExists && env.qmpConnectOk) = true <;>
          simp [hc] at hin
    | none =>
        rw [stop_events_of_find_none env qmp_socket timeoutMs hfind] at hin
        have hin' : StopEvent.sigterm pid t ∈ stopEscalation env (breakIter timeoutMs) := by
          rcases List.mem_append.mp hin with h | h
          · by_cases hc : (qmp_socket.isSome && env.sockExists && env.qmpConnectOk) = true <;>
              simp [hc] at h
          · exact h
        obtain ⟨ht, hp, ha⟩ := sigterm_mem_stopEscalation env (breakIter timeoutMs) pid t hin'
        exact ⟨ht ▸ timeout_le_breakIter timeoutMs, hp, ha⟩
  · intro pid t hin
    cases hfind : (List.range (breakIter timeoutMs + 1)).find? (pidGoneAt env) with
    | some k =>
        rw [stop_events_of_find_some env qmp_socket timeoutMs k hfind] at hin
        by_cases hc : (qmp_socket.isSome && env.sockExists && env.qmpConnectOk) = true <;>
          simp [hc] at hin
    | none =>
        rw [stop_events_of_find_none env qmp_socket timeoutMs hfind] at hin
        have hin' : StopEvent.sigkill pid t ∈ stopEscalation env (breakIter timeoutMs) := by
          rcases List.mem_append.mp hin with h | h
          · by_cases hc : (qmp_socket.isSome && env.sockExists && env.qmpConnectOk) = true <;>
              simp [hc] at h
          · exact h
        obtain ⟨ht, hp, ha1, ha2⟩ :=
          sigkill_mem_stopEscalation env (breakIter timeoutMs) pid t hmono hin'
        refine ⟨?_, by omega, ha2⟩
        rw [stop_events_of_find_none env qmp_socket timeoutMs hfind]
        have hterm := sigterm_head_stopEscalation env (breakIter timeoutMs) pid hp ha1
        have hsub : t - 3000 = 500 * breakIter timeoutMs := by omega
        rw [hsub]
        exact List.mem_append.mpr (Or.inr hterm)
  · intro hex pid t
    have hsome : ((List.range (breakIter timeoutMs + 1)).find? (pidGoneAt env)).isSome := by
      rcases hex with ⟨k, hk, hgone⟩
      apply List.find?_isSome.mpr
      refine ⟨k, List.mem_range.mpr (by omega), ?_⟩
      unfold pidGoneAt
      rcases hgone with h | ⟨pid', hp, ha⟩
      · rw [h]
      · rw [hp]; simp [ha]
    obtain ⟨k, hfind⟩ := Option.isSome_iff_exists.mp hsome
    have hev := stop_events_of_find_some env qmp_socket timeoutMs k hfind
    constructor <;> rw [hev] <;>
      by_cases hc : (qmp_socket.isSome && env.sockExists && env.qmpConnectOk) = true <;>
        simp [hc]

/-- Concrete instantiation of `c3_stop_signal_ordering`: a pid that never
dies, timeout 1000 ms (break iteration 2), gets SIGTERM at 1000 ms. -/
theorem c3_stop_signal_ordering_witness :
    StopEvent.sigterm 42 1000 ∈
      (QemuBackend.stop ⟨false, false, false, fun _ => some 42, fun _ _ => true⟩
        none 1000).1
    ∧ (1000 ≤ 1000
        ∧ (⟨false, false, false, fun _ => some 42, fun _ _ => true⟩ :
            StopEnv).pidAt (breakIter 1000 + 1) = some 42
        ∧ (⟨false, false, false, fun _ => some 42, fun _ _ => true⟩ :
            StopEnv).aliveAt (breakIter 1000 + 1) 42 = true) :=
  ⟨by decide,
   (c3_stop_signal_ordering
      ⟨false, false, false, fun _ => some 42, fun _ _ => true⟩ none 1000
      (fun i j pid hij hf => by simp at hf)).2.1 42 1000 (by decide)⟩

/-- C4: `state` returns `Stopped`/`Destroyed` by `work_dir` existence
when the pidfile is missing or the pid is dead; otherwise maps the QMP
status (`running → Running`, `paused`/`suspended → Stopped`, anything
else → `Running`) with every QMP failure falling back to `Running`; and
— given that a readable pidfile lives inside `work_dir` — returns
`Destroyed` iff `work_dir` does not exist. -/
theorem c4_state_mapping (env : StateEnv) (qmp_socket : Option String)
    (hfs : env.pidRead.isSome = true → env.workDirExists = true) :
    ((env.pidRead = none
        ∨ ∃ pid, env.pidRead = some pid ∧ env.alive pid = false) →
      QemuBackend.state env qmp_socket
        = .ok (if env.workDirExists then VmState.Stopped else VmState.Destroyed))
    ∧ (∀ pid, env.pidRead = some pid → env.alive pid = true →
        (∀ sock s, qmp_socket = some sock → env.qmpConnectOk = true →
            env.queryStatus = some s →
            QemuBackend.state env qmp_socket
              = .ok (if s = "running" then VmState.Running
                     else if s = "paused" ∨ s = "suspended" then VmState.Stopped
                     else VmState.Running))
          ∧ ((env.qmpConnectOk = false ∨ env.queryStatus = none ∨ qmp_socket = none) →
              QemuBackend.state env qmp_socket = .ok VmState.Running))
    ∧ (QemuBackend.state env qmp_socket = .ok VmState.Destroyed ↔
        env.workDirExists = false) := by
  refine ⟨?_, ?_, ?_⟩
  · rintro (h | ⟨pid, hp, ha⟩)
    · by_cases he : env.workDirExists = true <;>
        simp [QemuBackend.state, h, he]
    · by_cases he : env.workDirExists = true <;>
        simp [QemuBackend.state, hp, ha, he]
  · intro pid hp ha
    constructor
    · intro sock s hsock hconn hq
      simp [QemuBackend.state, hp, ha, hsock, hconn, hq, mapQmpStatus]
    · rintro (h | h | h)
      · cases hq : env.queryStatus <;> cases qmp_socket <;>
          simp [QemuBackend.state, hp, ha, h, hq]
      · cases hc : env.qmpConnectOk <;> cases qmp_socket <;>
          simp [QemuBackend.state, hp, ha, h, hc]
      · simp [QemuBackend.state, hp, ha, h]
  · constructor
    · intro h
      cases hp : env.pidRead with
      | none =>
          by_cases he : env.workDirExists = true
          · simp [QemuBackend.state, hp, he] at h
          · simpa using he
      | some pid =>
          have he := hfs (by simp [hp])
          by_cases ha : env.alive pid = true
          · exfalso
            cases hsock : qmp_socket <;>
              cases hc : env.qmpConnectOk <;>
                cases hq : env.queryStatus <;>
                  simp [QemuBackend.state, hp, ha, hsock, hc, hq, mapQmpStatus] at h <;>
                    split at h <;> (try split at h) <;> simp_all
          · simp [QemuBackend.state, hp, ha, he] at h
    · intro h
      cases hp : env.pidRead with
      | none => simp [QemuBackend.state, hp, h]
      | some pid =>
          exact absurd (hfs (by simp [hp])) (by simp [h])

/-- Concrete instantiation of `c4_state_mapping`: no pidfile and no
work directory give `Destroyed`. -/
theorem c4_state_mapping_witness :
    QemuBackend.state ⟨none, fun _ => false, false, none, false⟩ none
      = .ok VmState.Destroyed :=
  ((c4_state_mapping ⟨none, fun _ => false, false, none, false⟩ none
      (by decide)).2.2).mpr rfl

/-- C6: `guest_ip` proceeds in order — it returns the first qualifying
leading token of an `ip neigh show` line containing `REACHABLE` or
`STALE` (containing `.`, not starting with `127.`); failing that, with a
default bridge configured it returns the third whitespace field of the
last dnsmasq-leases line; otherwise it fails with `IpDiscoveryTimeout`. -/
theorem c6_guest_ip_ordered (env : GuestIpEnv) (default_bridge : Option String)
    (name : String) :
    (∀ text ip, env.ipNeighOut = some text →
        (rustLines text).findSome? scanNeighLine = some ip →
        QemuBackend.guest_ip env default_bridge name = .ok (String.mk ip)
          ∧ ip.contains '.' = true
          ∧ "127.".data.isPrefixOf ip = false
          ∧ ∃ line ∈ rustLines text,
              (listIsInfix "REACHABLE".data line
                || listIsInfix "STALE".data line) = true
              ∧ (splitWs line).head? = some ip)
    ∧ (∀ text content line ip, env.ipNeighOut = some text →
        (rustLines text).findSome? scanNeighLine = none →
        default_bridge.isSome = true →
        env.leases = some content →
        (rustLines content).getLast? = some line →
        (splitWs line).get? 2 = some ip →
        QemuBackend.guest_ip env default_bridge name = .ok (String.mk ip))
    ∧ (∀ text, env.ipNeighOut = some text →
        (rustLines text).findSome? scanNeighLine = none →
        (default_bridge = none ∨ env.leases = none) →
        QemuBackend.guest_ip env default_bridge name
          = .error (.ipDiscoveryTimeout name))
    ∧ (env.ipNeighOut = none →
        QemuBackend.guest_ip env default_bridge name
          = .error (.ipDiscoveryTimeout name)) := by
  refine ⟨?_, ?_, ?_, ?_⟩
  · intro text ip hout hscan
    refine ⟨by simp [QemuBackend.guest_ip, hout, hscan], ?_⟩
    obtain ⟨line, hline, hf⟩ := List.exists_of_findSome?_eq_some hscan
    unfold scanNeighLine at hf
    by_cases hc : (listIsInfix "REACHABLE".data line
        || listIsInfix "STALE".data line) = true
    · rw [if_pos hc] at hf
      cases hh : (splitWs line).head? with
      | none => rw [hh] at hf; simp at hf
      | some tok =>
          rw [hh] at hf
          dsimp only at hf
          by_cases hi : (tok.contains '.' && ! ("127.".data.isPrefixOf tok)) = true
          · rw [if_pos hi] at hf
            have htok : tok = ip := by simpa using hf
            subst htok
            have hi' : tok.contains '.' = true
                ∧ "127.".data.isPrefixOf tok = false := by simpa using hi
            exact ⟨hi'.1, hi'.2, line, hline, hc, hh⟩
          · rw [if_neg hi] at hf; simp at hf
    · rw [if_neg hc] at hf; simp at hf
  · intro text content line ip hout hscan hbridge hleases hlast hip
    obtain ⟨hlt, -⟩ := List.get?_eq_some.mp hip
    have hlen : (splitWs line).length ≥ 3 := by omega
    have hip' : (splitWs line)[2]? = some ip := by
      simpa [List.get?_eq_getElem?] using hip
    simp [QemuBackend.guest_ip, hout, hscan, hbridge, hleases, hlast, hlen, hip']
  · intro text hout hscan hnone
    rcases hnone with h | h <;>
      simp [QemuBackend.guest_ip, hout, hscan, h]
  · intro hout
    simp [QemuBackend.guest_ip, hout]

/-- Concrete instantiation of `c6_guest_ip_ordered` on the spec's
guest-IP parsing scenario. -/
theorem c6_guest_ip_ordered_witness :
    QemuBackend.guest_ip
        ⟨some ("192.168.122.10 dev virbr0 lladdr 52:54:00:ab:cd:ef REACHABLE\n127.0.0.1 dev lo REACHABLE\n").data,
         none⟩ none "vm"
      = .ok "192.168.122.10" :=
  ((c6_guest_ip_ordered
      ⟨some ("192.168.122.10 dev virbr0 lladdr 52:54:00:ab:cd:ef REACHABLE\n127.0.0.1 dev lo REACHABLE\n").data,
       none⟩ none "vm").1
    ("192.168.122.10 dev virbr0 lladdr 52:54:00:ab:cd:ef REACHABLE\n127.0.0.1 dev lo REACHABLE\n").data
    "192.168.122.10".data rfl (by decide)).1

/-- C7: for a handle with an overlay path (and the socket paths
`prepare` always sets), `start` passes the exact §6.1 argument vector,
including the seed drive pair exactly when `seed_iso_path` is set and
ending with `-daemonize -pidfile <work_dir>/qemu.pid`, and fails with
`QemuSpawnFailed` when the spawn fails or qemu exits non-zero. -/
theorem c7_start_argv (env : StartEnv) (vm : VmHandleM)
    (overlay qmpSock consoleSock : String)
    (hov : vm.overlay_path = some overlay)
    (hq : vm.qmp_socket = some qmpSock)
    (hc : vm.console_socket = some consoleSock) :
    ((QemuBackend.start env vm).spawnedArgs
        = some
          (["-enable-kvm",
            "-machine", "q35,accel=kvm",
            "-cpu", "host",
            "-nodefaults",
            "-qmp", "unix:" ++ qmpSock ++ ",server,nowait",
            "-serial", "unix:" ++ consoleSock ++ ",server,nowait",
            "-vnc", "127.0.0.1:0",
            "-device", "virtio-rng-pci",
            "-drive", "file=" ++ overlay ++ ",format=qcow2,if=none,id=drive0,discard=unmap",
            "-device", "virtio-blk-pci,drive=drive0"]
           ++ (match vm.seed_iso_path with
               | some iso =>
                   ["-drive", "file=" ++ iso ++ ",format=raw,if=none,id=seed,readonly=on",
                    "-device", "virtio-blk-pci,drive=seed"]
               | none => [])
           ++ ["-daemonize", "-pidfile", vm.work_dir ++ "/" ++ "qemu.pid"]))
    ∧ ((env.spawnStatus = none ∨ env.spawnStatus = some false) →
        ∃ d, (QemuBackend.start env vm).result = .error (.qemuSpawnFailed d))
    ∧ (env.spawnStatus = some true → env.qmpConnectErr = none →
        env.queryStatusRes = .ok "running" →
        (QemuBackend.start env vm).result = .ok ()) := by
  refine ⟨?_, ?_, ?_⟩
  · rcases hs : env.spawnStatus with _ | ⟨_ | _⟩ <;>
      rcases he : env.qmpConnectErr with _ | e <;>
        rcases hr : env.queryStatusRes with e' | s <;>
          simp [QemuBackend.start, hov, hq, hc, hs, he, hr, qemuArgs, pathJoin]
  · rintro (hs | hs) <;>
      simp [QemuBackend.start, hov, hq, hc, hs]
  · intro hs he hr
    simp [QemuBackend.start, hov, hq, hc, hs, he, hr]

/-- Concrete instantiation of `c7_start_argv`: spawn fails, yielding a
`QemuSpawnFailed` error. -/
theorem c7_start_argv_witness :
    (∃ d, (QemuBackend.start ⟨none, none, .ok "running"⟩
        ⟨"qemu-u1", "vm1", .Qemu, "/data/vm1", some "/data/vm1/overlay.qcow2",
         none, none, some "/data/vm1/qmp.sock", some "/data/vm1/console.sock",
         none⟩).result = .error (.qemuSpawnFailed d)) :=
  (c7_start_argv ⟨none, none, .ok "running"⟩
      ⟨"qemu-u1", "vm1", .Qemu, "/data/vm1", some "/data/vm1/overlay.qcow2",
       none, none, some "/data/vm1/qmp.sock", some "/data/vm1/console.sock",
       none⟩
      "/data/vm1/overlay.qcow2" "/data/vm1/qmp.sock" "/data/vm1/console.sock"
      rfl rfl rfl).2.1 (Or.inl rfl)

/-- C8: when `cloud_init` is set and `prepare` succeeds, the seed ISO is
written at `<data_dir>/<name>/seed.iso` with meta-data being the two
lines `instance-id: <id>` and `local-hostname: <host>` (each defaulting
to `spec.name`), and the returned handle reserves
`<work_dir>/qmp.sock` and `<work_dir>/console.sock` and has an id
starting with `qemu-`. -/
theorem c8_prepare_cloudinit (env : PrepareEnv) (data_dir : String)
    (spec : VmSpecM) (ci : CloudInitM) (h : VmHandleM)
    (hci : spec.cloud_init = some ci)
    (hok : (QemuBackend.prepare env data_dir spec).2 = .ok h) :
    (QemuBackend.prepare env data_dir spec).1
      = [(pathJoin (pathJoin data_dir spec.name) "seed.iso",
          ci.user_data,
          strBytes ("instance-id: " ++ ci.instance_id.getD spec.name
            ++ "\nlocal-hostname: " ++ ci.hostname.getD spec.name ++ "\n"))]
    ∧ h.work_dir = pathJoin data_dir spec.name
    ∧ h.seed_iso_path = some (pathJoin h.work_dir "seed.iso")
    ∧ h.qmp_socket = some (pathJoin h.work_dir "qmp.sock")
    ∧ h.console_socket = some (pathJoin h.work_dir "console.sock")
    ∧ ∃ rest, h.id = "qemu-" ++ rest := by
  unfold QemuBackend.prepare at hok ⊢
  by_cases hcd : env.createDirOk = false
  · rw [if_pos hcd] at hok; simp at hok
  · rw [if_neg hcd] at hok ⊢
    dsimp only at hok ⊢
    cases hovl : (create_overlay env.imgEnv spec.image_path
        (pathJoin (pathJoin data_dir spec.name) "overlay.qcow2") spec.disk_gb).2 with
    | error e => rw [hovl] at hok; simp at hok
    | ok u =>
        rw [hovl] at hok
        dsimp only at hok ⊢
        rw [hci] at hok ⊢
        dsimp only at hok ⊢
        cases hiso : env.isoErr with
        | some e => rw [hiso] at hok; simp at hok
        | none =>
            rw [hiso] at hok
            dsimp only at hok ⊢
            simp only [Except.ok.injEq] at hok
            subst hok
            exact ⟨rfl, rfl, rfl, rfl, rfl, env.uuid, rfl⟩

/-- Concrete instantiation of `c8_prepare_cloudinit`: defaults for
instance-id and hostname come from the spec name. -/
theorem c8_prepare_cloudinit_witness :
    (QemuBackend.prepare
        ⟨true, ⟨some (true, some (Json.obj [("format", Json.str "qcow2")])),
                some true, "", ""⟩, none, "u1"⟩
        "/data"
        ⟨"vm1", "/img/base.qcow2", 1, 512, none,
         some ⟨strBytes "#cloud-config\n", none, none, none⟩⟩).1
      = [("/data/vm1/seed.iso", strBytes "#cloud-config\n",
          strBytes "instance-id: vm1\nlocal-hostname: vm1\n")] := by
  have h := c8_prepare_cloudinit
      ⟨true, ⟨some (true, some (Json.obj [("format", Json.str "qcow2")])),
              some true, "", ""⟩, none, "u1"⟩
      "/data"
      ⟨"vm1", "/img/base.qcow2", 1, 512, none,
       some ⟨strBytes "#cloud-config\n", none, none, none⟩⟩
      ⟨strBytes "#cloud-config\n", none, none, none⟩
      { id := "qemu-" ++ "u1", name := "vm1", backend := .Qemu,
        work_dir := "/data/vm1",
        overlay_path := some "/data/vm1/overlay.qcow2",
        seed_iso_path := some "/data/vm1/seed.iso", pid := none,
        qmp_socket := some "/data/vm1/qmp.sock",
        console_socket := some "/data/vm1/console.sock", vnc_addr := none }
      rfl rfl
  simpa [pathJoin] using h.1

/-- C10: with no `qmp_socket` path, `suspend` and `resume` succeed
immediately without attempting any QMP connection; conversely they can
only fail when a socket path is present. -/
theorem c10_suspend_resume_no_socket (envS envR : QmpOpEnv)
    (qmp_socket : Option String) :
    (qmp_socket = none →
        QemuBackend.suspend envS qmp_socket = (false, .ok ())
          ∧ QemuBackend.resume envR qmp_socket = (false, .ok ()))
    ∧ (∀ e, (QemuBackend.suspend envS qmp_socket).2 = .error e →
        qmp_socket.isSome = true)
    ∧ (∀ e, (QemuBackend.resume envR qmp_socket).2 = .error e →
        qmp_socket.isSome = true) := by
  refine ⟨?_, ?_, ?_⟩
  · intro h
    subst h
    exact ⟨rfl, rfl⟩
  · intro e he
    cases qmp_socket with
    | none => simp [QemuBackend.suspend, qmpOpOnSocket] at he
    | some _ => rfl
  · intro e he
    cases qmp_socket with
    | none => simp [QemuBackend.resume, qmpOpOnSocket] at he
    | some _ => rfl

/-- Concrete instantiation of `c10_suspend_resume_no_socket`. -/
theorem c10_suspend_resume_no_socket_witness :
    QemuBackend.suspend ⟨some (.qmpConnectTimeout "p"), none⟩ none
        = (false, .ok ())
      ∧ QemuBackend.resume ⟨none, some (.qmpProtocol "boom")⟩ none
        = (false, .ok ()) :=
  (c10_suspend_resume_no_socket ⟨some (.qmpConnectTimeout "p"), none⟩
      ⟨none, some (.qmpProtocol "boom")⟩ none).1 rfl

